import Mathlib

/-!
Verification of the leptos-use composables against their sources:
`src/math/use_not.rs`, `src/use_mouse.rs` and `src/use_event_listener.rs`.

The reactive substrate is modelled shallowly:

* a `Signal α` is a function from an abstract time (the number of updates
  that have happened so far) to a value; `Signal.derive` builds a derived
  signal that reads its dependencies at the same instant;
* the mouse tracker is a pure state (`MouseState`) updated by the handler
  closures of `use_mouse_with_options`, and the set of listeners that the
  function registers is computed by `registeredListeners`;
* the event-listener binder is a state machine (`BinderState`) whose state
  holds the set of active native registrations of the binding and the
  content of the `cleanup_prev_element` cell.  One run of the reactive
  effect (lines 153-174 of `use_event_listener.rs`) is one atomic step.

Coordinates are modelled as integers: every built-in accessor of
`web_sys::MouseEvent` and `web_sys::Touch` used by the source returns an
`i32` which is then cast exactly to `f64`, and the tracker performs no
arithmetic on the values it stores.
-/

/-! ## Signals (model of the leptos reactive substrate) -/

/-- A reactive signal, as the function from time (number of updates so far)
to its current value. -/
def Signal (α : Type) : Type := Nat → α

/-- Reading a signal at an instant. -/
def signalGet {α : Type} (s : Signal α) (t : Nat) : α := s t

/-- Model of `Signal::derive`: a derived signal reads its dependencies at
the instant it is itself read. -/
def Signal.derive {α : Type} (f : Nat → α) : Signal α := f

/-! ## `use_not` (src/math/use_not.rs, lines 32-38) -/

/-- Embedding of `use_not`: `Signal::derive(move || !a.get())`. -/
def use_not (a : Signal Bool) : Signal Bool :=
  Signal.derive (fun t => !(signalGet a t))

/-! ## Mouse tracker data model (src/use_mouse.rs) -/

/-- Coordinates of a `web_sys::MouseEvent` (also used for `DragEvent`,
which `drag_handler` casts to a `MouseEvent`). -/
structure MouseEvent where
  page_x : Int
  page_y : Int
  client_x : Int
  client_y : Int
  screen_x : Int
  screen_y : Int
  movement_x : Int
  movement_y : Int
deriving DecidableEq

/-- Coordinates of a single `web_sys::Touch`. -/
structure Touch where
  page_x : Int
  page_y : Int
  client_x : Int
  client_y : Int
  screen_x : Int
  screen_y : Int
deriving DecidableEq

/-- A `web_sys::TouchEvent`, reduced to its list of touches. -/
structure TouchEvent where
  touches : List Touch
deriving DecidableEq

/-- The two optional extraction capabilities of the
`UseMouseEventExtractor` trait. -/
structure UseMouseEventExtractor where
  extract_mouse_coords : MouseEvent → Option (Int × Int)
  extract_touch_coords : Touch → Option (Int × Int)

/-- The default extractor (`UseMouseEventExtractorDefault`): both trait
methods keep their default body, which returns `None`. -/
def UseMouseEventExtractorDefault : UseMouseEventExtractor :=
  ⟨fun _ => none, fun _ => none⟩

/-- The coordinate extraction strategy `UseMouseCoordType`. -/
inductive UseMouseCoordType where
  | Page
  | Client
  | Screen
  | Movement
  | Custom (extractor : UseMouseEventExtractor)

/-- Embedding of `UseMouseCoordType::extract_mouse_coords`
(src/use_mouse.rs, lines 272-282). -/
def UseMouseCoordType.extract_mouse_coords :
    UseMouseCoordType → MouseEvent → Option (Int × Int)
  | .Page, event => some (event.page_x, event.page_y)
  | .Client, event => some (event.client_x, event.client_y)
  | .Screen, event => some (event.screen_x, event.client_y)
  | .Movement, event => some (event.movement_x, event.movement_y)
  | .Custom extractor, event => extractor.extract_mouse_coords event

/-- Embedding of `UseMouseCoordType::extract_touch_coords`
(src/use_mouse.rs, lines 284-292). -/
def UseMouseCoordType.extract_touch_coords :
    UseMouseCoordType → Touch → Option (Int × Int)
  | .Page, touch => some (touch.page_x, touch.page_y)
  | .Client, touch => some (touch.client_x, touch.client_y)
  | .Screen, touch => some (touch.screen_x, touch.client_y)
  | .Movement, _ => none
  | .Custom extractor, touch => extractor.extract_touch_coords touch

/-- Test for `matches!(options.coord_type, UseMouseCoordType::Movement)`
(src/use_mouse.rs, line 165). -/
def UseMouseCoordType.isMovement : UseMouseCoordType → Bool
  | .Movement => true
  | _ => false

/-- Tag of the source of the last reported coordinates. -/
inductive UseMouseSourceType where
  | Mouse
  | Touch
  | Unset
deriving DecidableEq

/-- The `initial_value` position. -/
structure Position where
  x : Int
  y : Int
deriving DecidableEq

/-- The reactive state of the tracker: the three signals `x`, `y` and
`source_type` created by `use_mouse_with_options`. -/
structure MouseState where
  x : Int
  y : Int
  source_type : UseMouseSourceType
deriving DecidableEq

/-- Options of `use_mouse_with_options` that influence its behaviour (the
`target` is abstracted away: all listeners go to the same target). -/
structure UseMouseOptions where
  coord_type : UseMouseCoordType
  touch : Bool
  reset_on_touch_ends : Bool
  initial_value : Position

/-! ## Mouse tracker handlers (src/use_mouse.rs, lines 105-143) -/

/-- Embedding of the `mouse_handler` closure (lines 105-113): extract the
coordinates and, when present, set `x`, `y` and the source tag. -/
def mouse_handler (coord_type : UseMouseCoordType) (event : MouseEvent)
    (s : MouseState) : MouseState :=
  match coord_type.extract_mouse_coords event with
  | some (x, y) => ⟨x, y, .Mouse⟩
  | none => s

/-- Embedding of the `touch_handler` closure (lines 122-137), with the
possibly panicking `.expect` on `touches.get(0)` modelled by `Option`:
`none` is the panic. -/
def touch_handler_run (coord_type : UseMouseCoordType) (event : TouchEvent)
    (s : MouseState) : Option MouseState :=
  if event.touches.length > 0 then
    match event.touches.get? 0 with
    | some touch =>
      match coord_type.extract_touch_coords touch with
      | some (x, y) => some ⟨x, y, .Touch⟩
      | none => some s
    | none => none
  else
    some s

/-- The touch handler as a state transformer (the panic never happens, see
`touch_handler_total_aux`). -/
def touch_handler (coord_type : UseMouseCoordType) (event : TouchEvent)
    (s : MouseState) : MouseState :=
  (touch_handler_run coord_type event s).getD s

/-- Embedding of the `reset` closure (lines 140-143): set `x` and `y` back
to the initial value, leave the source tag alone. -/
def reset (initial_value : Position) (s : MouseState) : MouseState :=
  ⟨initial_value.x, initial_value.y, s.source_type⟩

/-! ## Mouse tracker listener wiring (src/use_mouse.rs, lines 151-189) -/

/-- The five kinds of DOM events the tracker may listen to. -/
inductive ListenerKind where
  | mousemove
  | dragover
  | touchstart
  | touchmove
  | touchend
deriving DecidableEq

/-- The listeners registered by `use_mouse_with_options`, in registration
order (lines 151-189). -/
def registeredListeners (opts : UseMouseOptions) : List ListenerKind :=
  [.mousemove, .dragover] ++
    (if opts.touch && !(opts.coord_type.isMovement) then
      [.touchstart, .touchmove] ++
        (if opts.reset_on_touch_ends then [.touchend] else [])
    else
      [])

/-- A DOM event delivered to the target of the tracker. -/
inductive DomEvent where
  | mousemove (e : MouseEvent)
  | dragover (e : MouseEvent)
  | touchstart (e : TouchEvent)
  | touchmove (e : TouchEvent)
  | touchend

/-- One delivery of a DOM event to the tracker: a handler runs exactly when
the corresponding listener was registered by `use_mouse_with_options`.
`dragover` goes through `drag_handler`, which forwards the event to
`mouse_handler` (lines 116-119). -/
def use_mouse_step (opts : UseMouseOptions) (ev : DomEvent)
    (s : MouseState) : MouseState :=
  match ev with
  | .mousemove e => mouse_handler opts.coord_type e s
  | .dragover e => mouse_handler opts.coord_type e s
  | .touchstart e =>
    if opts.touch && !(opts.coord_type.isMovement) then
      touch_handler opts.coord_type e s
    else s
  | .touchmove e =>
    if opts.touch && !(opts.coord_type.isMovement) then
      touch_handler opts.coord_type e s
    else s
  | .touchend =>
    if (opts.touch && !(opts.coord_type.isMovement)) &&
        opts.reset_on_touch_ends then
      reset opts.initial_value s
    else s

/-! ## Event listener binder (src/use_event_listener.rs, lines 105-180)

A logical binding fixes one event name and one handler closure, so a native
registration of this binding is identified by the target it lives on.
`addEventListener` ignores a second identical registration and
`removeEventListener` silently ignores a missing one, which is exactly the
DOM semantics the source relies on. -/

/-- An abstract `web_sys::EventTarget` handle. -/
abbrev Target : Type := Nat

/-- Native `addEventListener` for the closure of this binding on `t`: the
DOM ignores a duplicate of an identical registration. -/
def addListener (active : List Target) (t : Target) : List Target :=
  if t ∈ active then active else t :: active

/-- Native `removeEventListener` for the closure of this binding on `t`: a
missing registration is silently ignored. -/
def removeListener (active : List Target) (t : Target) : List Target :=
  active.erase t

/-- The state of one logical binding: `active` is the set of targets
holding a native registration of the handler, `cleanupCell` is the content
of the `cleanup_prev_element` cell (`some t` stands for the closure
`move || clean(element)` with `element = t`; `none` stands for the no-op
closure `move || {}`). -/
structure BinderState where
  active : List Target
  cleanupCell : Option Target
deriving DecidableEq

/-- Running the closure currently stored in `cleanup_prev_element`
(`cleanup_prev_element.borrow()()`): it removes the listener from the
captured target and leaves the cell itself untouched. -/
def runStoredCleanup (s : BinderState) : BinderState :=
  match s.cleanupCell with
  | some t => ⟨removeListener s.active t, s.cleanupCell⟩
  | none => s

/-- The initial, untracked registration of
`use_event_listener_with_options` (lines 132-149): if the target signal
currently resolves to a target, register there and store the matching
cleanup closure; otherwise store the no-op closure. -/
def bindInit (target : Option Target) : BinderState :=
  match target with
  | some t => ⟨addListener [] t, some t⟩
  | none => ⟨[], none⟩

/-- One run of the reactive effect (lines 153-174): first invoke the stored
cleanup, then resolve the target signal; if a target is present, register
there and replace the cell with the matching cleanup closure, otherwise
replace the cell with the no-op closure. -/
def effectRun (s : BinderState) (newTarget : Option Target) : BinderState :=
  let s1 := runStoredCleanup s
  match newTarget with
  | some t => ⟨addListener s1.active t, some t⟩
  | none => ⟨s1.active, none⟩

/-- A call of the returned cleanup function (line 176), also used by the
`on_cleanup` teardown (line 177): it runs the stored closure and leaves the
cell in place. -/
def cleanupCall (s : BinderState) : BinderState :=
  runStoredCleanup s

/-- A native call performed by the binder. -/
inductive NativeOp where
  | register (t : Target)
  | unregister (t : Target)
deriving DecidableEq

/-- The native calls performed by one run of the reactive effect, in
program order: the stored cleanup calls `removeEventListener` exactly when
the cell holds a real closure, then `addEventListener` is called exactly
when the new target is present. -/
def effectOps (s : BinderState) (newTarget : Option Target) : List NativeOp :=
  (match s.cleanupCell with
   | some t => [NativeOp.unregister t]
   | none => []) ++
  (match newTarget with
   | some t => [NativeOp.register t]
   | none => [])

/-- An external stimulus of the binding after its creation. -/
inductive BinderEvent where
  | targetChange (target : Option Target)
  | cleanup

/-- One step of the binding: a change notification of the target signal
re-runs the effect; a cleanup call (explicit or at scope teardown) runs the
stored closure. -/
def binderStep (s : BinderState) (ev : BinderEvent) : BinderState :=
  match ev with
  | .targetChange target => effectRun s target
  | .cleanup => cleanupCall s

/-- The state of the binding after a sequence of stimuli. -/
def binderRun (s : BinderState) (evs : List BinderEvent) : BinderState :=
  evs.foldl binderStep s

/-- States of a binding in which the registration set matches the cleanup
cell: the target captured by the stored closure is the only possible
registration.  All reachable states are of this shape. -/
def goodState : BinderState → Prop
  | ⟨active, some t⟩ => active = [t] ∨ active = []
  | ⟨active, none⟩ => active = []

/-! ## Theorems about `use_not` and the mouse tracker -/

/-- C2: the signal returned by `use_not` always reads as the logical
negation of the current value of the source, and it changes between two
instants exactly when the source does. -/
theorem use_not_correct (a : Signal Bool) (t : Nat) :
    signalGet (use_not a) t = !(signalGet a t)
  ∧ (∀ u v : Nat,
      (signalGet (use_not a) u ≠ signalGet (use_not a) v
        ↔ signalGet a u ≠ signalGet a v)) := by
  refine ⟨rfl, fun u v => ?_⟩
  simp [use_not, Signal.derive, signalGet]

theorem use_not_correct_witness :
    signalGet (use_not (fun _ => true)) 0 = !(signalGet (fun _ => true) 0) :=
  (use_not_correct (fun _ => true) 0).1

/-- C3: with the `Page` strategy, a mouse-move event with page coordinates
`(12, 34)` sets the tracker state to `x = 12`, `y = 34`, source `Mouse`. -/
theorem use_mouse_page_mousemove (opts : UseMouseOptions) (e : MouseEvent)
    (s : MouseState) (hct : opts.coord_type = UseMouseCoordType.Page)
    (hx : e.page_x = 12) (hy : e.page_y = 34) :
    use_mouse_step opts (DomEvent.mousemove e) s
      = ⟨12, 34, UseMouseSourceType.Mouse⟩ := by
  simp [use_mouse_step, mouse_handler, hct,
    UseMouseCoordType.extract_mouse_coords, hx, hy]

theorem use_mouse_page_mousemove_witness :
    use_mouse_step ⟨UseMouseCoordType.Page, true, false, ⟨0, 0⟩⟩
        (DomEvent.mousemove ⟨12, 34, 1, 2, 3, 4, 5, 6⟩)
        ⟨0, 0, UseMouseSourceType.Unset⟩
      = ⟨12, 34, UseMouseSourceType.Mouse⟩ :=
  use_mouse_page_mousemove ⟨UseMouseCoordType.Page, true, false, ⟨0, 0⟩⟩
    ⟨12, 34, 1, 2, 3, 4, 5, 6⟩ ⟨0, 0, UseMouseSourceType.Unset⟩ rfl rfl rfl

/-- C4: the `Screen` strategy pairs `screen_x` with `client_y`, for every
mouse event and for every touch; in particular it does not return
`(screen_x, screen_y)`. -/
theorem screen_strategy_pairs_screen_x_with_client_y :
    (∀ e : MouseEvent,
      UseMouseCoordType.Screen.extract_mouse_coords e
        = some (e.screen_x, e.client_y))
  ∧ (∀ touch : Touch,
      UseMouseCoordType.Screen.extract_touch_coords touch
        = some (touch.screen_x, touch.client_y))
  ∧ (∃ e : MouseEvent,
      UseMouseCoordType.Screen.extract_mouse_coords e
        ≠ some (e.screen_x, e.screen_y)) :=
  ⟨fun _ => rfl, fun _ => rfl, ⟨⟨0, 0, 0, 1, 2, 3, 0, 0⟩, by decide⟩⟩

/-- C5 (counterexample to the claim as stated): with touch disabled, a
tracker configured with reset-on-touch-end does not register the touch-end
listener, so a touch-end event leaves the state `(10, 20)` unchanged
instead of resetting it to the initial value `(0, 0)`. -/
theorem use_mouse_touchend_reset_counterexample :
    use_mouse_step ⟨UseMouseCoordType.Page, false, true, ⟨0, 0⟩⟩
        DomEvent.touchend ⟨10, 20, UseMouseSourceType.Mouse⟩
      = ⟨10, 20, UseMouseSourceType.Mouse⟩
  ∧ (⟨10, 20, UseMouseSourceType.Mouse⟩ : MouseState)
      ≠ ⟨0, 0, UseMouseSourceType.Mouse⟩ :=
  ⟨rfl, by decide⟩

/-- C5 (amended): when touch is enabled, the strategy is not `Movement`
and reset-on-touch-end is set, a touch-end event resets `x` and `y` to the
configured initial value and leaves the source tag unchanged. -/
theorem use_mouse_touchend_resets_coords (opts : UseMouseOptions)
    (s : MouseState) (hr : opts.reset_on_touch_ends = true)
    (ht : opts.touch = true) (hm : opts.coord_type.isMovement = false) :
    use_mouse_step opts DomEvent.touchend s
      = ⟨opts.initial_value.x, opts.initial_value.y, s.source_type⟩ := by
  simp [use_mouse_step, hr, ht, hm, reset]

theorem use_mouse_touchend_resets_coords_witness :
    use_mouse_step ⟨UseMouseCoordType.Page, true, true, ⟨7, 8⟩⟩
        DomEvent.touchend ⟨10, 20, UseMouseSourceType.Touch⟩
      = ⟨7, 8, UseMouseSourceType.Touch⟩ :=
  use_mouse_touchend_resets_coords ⟨UseMouseCoordType.Page, true, true, ⟨7, 8⟩⟩
    ⟨10, 20, UseMouseSourceType.Touch⟩ rfl rfl rfl

/-- C6: if touch is disabled or the strategy is `Movement`, only the
mouse-move and drag-over listeners are registered, and touch-start and
touch-move events leave the tracker state unchanged. -/
theorem use_mouse_touch_disabled_or_movement (opts : UseMouseOptions)
    (h : opts.touch = false ∨ opts.coord_type.isMovement = true) :
    registeredListeners opts = [ListenerKind.mousemove, ListenerKind.dragover]
  ∧ ∀ (te : TouchEvent) (s : MouseState),
      use_mouse_step opts (DomEvent.touchstart te) s = s
      ∧ use_mouse_step opts (DomEvent.touchmove te) s = s := by
  have hcond : (opts.touch && !(opts.coord_type.isMovement)) = false := by
    rcases h with h | h <;> simp [h]
  refine ⟨?_, fun te s => ⟨?_, ?_⟩⟩ <;>
    simp [registeredListeners, use_mouse_step, hcond]

theorem use_mouse_touch_disabled_or_movement_witness :
    registeredListeners ⟨UseMouseCoordType.Movement, true, true, ⟨0, 0⟩⟩
      = [ListenerKind.mousemove, ListenerKind.dragover]
  ∧ use_mouse_step ⟨UseMouseCoordType.Movement, true, true, ⟨0, 0⟩⟩
        (DomEvent.touchstart ⟨[]⟩) ⟨1, 2, UseMouseSourceType.Unset⟩
      = ⟨1, 2, UseMouseSourceType.Unset⟩ :=
  ⟨(use_mouse_touch_disabled_or_movement
      ⟨UseMouseCoordType.Movement, true, true, ⟨0, 0⟩⟩ (Or.inr rfl)).1,
   ((use_mouse_touch_disabled_or_movement
      ⟨UseMouseCoordType.Movement, true, true, ⟨0, 0⟩⟩ (Or.inr rfl)).2
      ⟨[]⟩ ⟨1, 2, UseMouseSourceType.Unset⟩).1⟩

/-- Helper for C7: the `.expect` inside `touch_handler` can never panic,
because `touches.get(0)` is only read after checking `length > 0`. -/
theorem touch_handler_total_aux (ct : UseMouseCoordType) (te : TouchEvent)
    (s : MouseState) : (touch_handler_run ct te s).isSome = true := by
  unfold touch_handler_run
  rcases hte : te.touches with _ | ⟨touch, rest⟩ <;> simp
  rcases ct.extract_touch_coords touch with _ | ⟨x, y⟩ <;> simp

/-- C7: the mouse and touch handlers are total, and whenever the strategy
yields no data (extractor returns none, or the touch event carries zero
touches) the tracker state is left unchanged. -/
theorem handlers_ignore_missing_data (ct : UseMouseCoordType)
    (e : MouseEvent) (te : TouchEvent) (s : MouseState) :
    (touch_handler_run ct te s).isSome = true
  ∧ (ct.extract_mouse_coords e = none → mouse_handler ct e s = s)
  ∧ (te.touches = [] → touch_handler ct te s = s)
  ∧ (∀ touch rest, te.touches = touch :: rest →
      ct.extract_touch_coords touch = none → touch_handler ct te s = s) := by
  refine ⟨touch_handler_total_aux ct te s, fun hm => ?_, fun hz => ?_,
    fun touch rest hc hx => ?_⟩
  · simp [mouse_handler, hm]
  · simp [touch_handler, touch_handler_run, hz]
  · simp [touch_handler, touch_handler_run, hc, hx]

theorem handlers_ignore_missing_data_witness :
    (touch_handler_run (UseMouseCoordType.Custom UseMouseEventExtractorDefault)
        ⟨[⟨1, 2, 3, 4, 5, 6⟩]⟩ ⟨0, 0, UseMouseSourceType.Unset⟩).isSome = true
  ∧ mouse_handler (UseMouseCoordType.Custom UseMouseEventExtractorDefault)
        ⟨1, 2, 3, 4, 5, 6, 7, 8⟩ ⟨0, 0, UseMouseSourceType.Unset⟩
      = ⟨0, 0, UseMouseSourceType.Unset⟩
  ∧ touch_handler (UseMouseCoordType.Custom UseMouseEventExtractorDefault)
        ⟨[⟨1, 2, 3, 4, 5, 6⟩]⟩ ⟨0, 0, UseMouseSourceType.Unset⟩
      = ⟨0, 0, UseMouseSourceType.Unset⟩ :=
  ⟨(handlers_ignore_missing_data
      (UseMouseCoordType.Custom UseMouseEventExtractorDefault)
      ⟨1, 2, 3, 4, 5, 6, 7, 8⟩ ⟨[⟨1, 2, 3, 4, 5, 6⟩]⟩
      ⟨0, 0, UseMouseSourceType.Unset⟩).1,
   (handlers_ignore_missing_data
      (UseMouseCoordType.Custom UseMouseEventExtractorDefault)
      ⟨1, 2, 3, 4, 5, 6, 7, 8⟩ ⟨[⟨1, 2, 3, 4, 5, 6⟩]⟩
      ⟨0, 0, UseMouseSourceType.Unset⟩).2.1 rfl,
   (handlers_ignore_missing_data
      (UseMouseCoordType.Custom UseMouseEventExtractorDefault)
      ⟨1, 2, 3, 4, 5, 6, 7, 8⟩ ⟨[⟨1, 2, 3, 4, 5, 6⟩]⟩
      ⟨0, 0, UseMouseSourceType.Unset⟩).2.2.2 ⟨1, 2, 3, 4, 5, 6⟩ [] rfl rfl⟩

/-! ## Theorems about the event listener binder -/

/-- Helper: the state right after `use_event_listener_with_options` returns
matches its cleanup cell. -/
theorem goodState_bindInit (target : Option Target) :
    goodState (bindInit target) := by
  cases target <;> simp [bindInit, goodState, addListener]

/-- Helper: every step of the binding preserves the correspondence between
the registration set and the cleanup cell. -/
theorem goodState_step (s : BinderState) (ev : BinderEvent)
    (h : goodState s) : goodState (binderStep s ev) := by
  obtain ⟨active, cell⟩ := s
  cases ev with
  | cleanup =>
    cases cell with
    | none => exact h
    | some t =>
      rcases h with h | h <;>
        simp [binderStep, cleanupCall, runStoredCleanup, removeListener,
          goodState, h]
  | targetChange tgt =>
    have hclean : (runStoredCleanup ⟨active, cell⟩).active = [] := by
      cases cell with
      | none => simpa [runStoredCleanup] using h
      | some t =>
        rcases h with h | h <;>
          simp [runStoredCleanup, removeListener, h]
    cases tgt with
    | none => simp [binderStep, effectRun, goodState, hclean]
    | some t => simp [binderStep, effectRun, goodState, hclean, addListener]

/-- Helper: the correspondence holds after any sequence of stimuli. -/
theorem goodState_run (evs : List BinderEvent) :
    ∀ (s : BinderState), goodState s → goodState (binderRun s evs) := by
  induction evs with
  | nil => exact fun s h => h
  | cons ev evs ih => exact fun s h => ih _ (goodState_step s ev h)

/-- Helper: a cleanup call on a state matching its cell empties the
registration set. -/
theorem cleanupCall_active_nil (s : BinderState) (h : goodState s) :
    (cleanupCall s).active = [] := by
  obtain ⟨active, cell⟩ := s
  cases cell with
  | none => exact h
  | some t =>
    rcases h with h | h <;>
      simp [cleanupCall, runStoredCleanup, removeListener, h]

/-- Helper: cleanup is idempotent on any state matching its cell. -/
theorem cleanupCall_idem_of_good (s : BinderState) (h : goodState s) :
    cleanupCall (cleanupCall s) = cleanupCall s := by
  obtain ⟨active, cell⟩ := s
  cases cell with
  | none => rfl
  | some t =>
    rcases h with h | h <;> subst h <;>
      simp [cleanupCall, runStoredCleanup, removeListener]

/-- Helper: running the stored closure never adds a registration. -/
theorem runStoredCleanup_nil (s : BinderState) (h : s.active = []) :
    (runStoredCleanup s).active = [] := by
  obtain ⟨active, cell⟩ := s
  cases cell <;> simp_all [runStoredCleanup, removeListener]

/-- Helper: a run along always-present targets keeps exactly one
registration, on the most recent target. -/
theorem binderRun_present_targets (ts : List Target) :
    ∀ t : Target,
      binderRun ⟨[t], some t⟩
          (ts.map (fun x => BinderEvent.targetChange (some x)))
        = ⟨[ts.getLastD t], some (ts.getLastD t)⟩ := by
  induction ts with
  | nil => exact fun t => rfl
  | cons t1 ts ih =>
    intro t
    have hstep : binderStep ⟨[t], some t⟩ (BinderEvent.targetChange (some t1))
        = ⟨[t1], some t1⟩ := by
      simp [binderStep, effectRun, runStoredCleanup, removeListener,
        addListener]
    calc binderRun ⟨[t], some t⟩
          ((t1 :: ts).map (fun x => BinderEvent.targetChange (some x)))
        = binderRun (binderStep ⟨[t], some t⟩
            (BinderEvent.targetChange (some t1)))
            (ts.map (fun x => BinderEvent.targetChange (some x))) := rfl
      _ = binderRun ⟨[t1], some t1⟩
            (ts.map (fun x => BinderEvent.targetChange (some x))) := by
            rw [hstep]
      _ = ⟨[ts.getLastD t1], some (ts.getLastD t1)⟩ := ih t1
      _ = ⟨[(t1 :: ts).getLastD t], some ((t1 :: ts).getLastD t)⟩ := by
            rw [List.getLastD_cons]

/-- C1 (counterexample to the claim as stated): a binding whose target
signal resolves to no target (for instance a node reference that is not
mounted yet) has zero active native registrations, not exactly one. -/
theorem use_event_listener_single_registration_counterexample :
    ¬ ((binderRun (bindInit none) []).active.length = 1) := by decide

/-- C1 (amended): for a binding whose resolved target is present at
creation and stays present across every change, after every reactive
update exactly one native registration is active, namely on the most
recent target; and every effect run whose stored cleanup captures a target
performs exactly one unregister (of the old target) followed by exactly
one register (of the new target), in this order, within that single
synchronous update. -/
theorem use_event_listener_single_registration (t0 : Target)
    (ts : List Target) :
    ((binderRun (bindInit (some t0))
        (ts.map (fun x => BinderEvent.targetChange (some x)))).active
        = [ts.getLastD t0]
      ∧ (binderRun (bindInit (some t0))
          (ts.map (fun x => BinderEvent.targetChange (some x)))).cleanupCell
          = some (ts.getLastD t0))
  ∧ (∀ (s : BinderState) (told tnew : Target), s.cleanupCell = some told →
      effectOps s (some tnew)
        = [NativeOp.unregister told, NativeOp.register tnew]) := by
  constructor
  · have hinit : bindInit (some t0) = ⟨[t0], some t0⟩ := by
      simp [bindInit, addListener]
    rw [hinit, binderRun_present_targets ts t0]
    exact ⟨rfl, rfl⟩
  · intro s told tnew h
    obtain ⟨active, cell⟩ := s
    cases cell with
    | none => simp at h
    | some t =>
      obtain rfl : t = told := by simpa using h
      rfl

theorem use_event_listener_single_registration_witness :
    ((binderRun (bindInit (some 0))
        ([1, 2].map (fun x => BinderEvent.targetChange (some x)))).active
        = [2]
      ∧ (binderRun (bindInit (some 0))
          ([1, 2].map (fun x => BinderEvent.targetChange (some x)))).cleanupCell
          = some 2)
  ∧ effectOps ⟨[5], some 5⟩ (some 7)
      = [NativeOp.unregister 5, NativeOp.register 7] :=
  ⟨(use_event_listener_single_registration 0 [1, 2]).1,
   (use_event_listener_single_registration 0 [1, 2]).2 ⟨[5], some 5⟩ 5 7 rfl⟩

/-- C8: the returned cleanup function is idempotent: a second call leaves
the whole binding state exactly as after the first call, whatever happened
to the binding before. -/
theorem use_event_listener_cleanup_idempotent (target : Option Target)
    (evs : List BinderEvent) :
    cleanupCall (cleanupCall (binderRun (bindInit target) evs))
      = cleanupCall (binderRun (bindInit target) evs) :=
  cleanupCall_idem_of_good _ (goodState_run evs _ (goodState_bindInit target))

/-- C9: creating a binding and immediately invoking the returned cleanup
function leaves zero active native registrations, whether or not the
target was present at creation. -/
theorem use_event_listener_bind_then_cleanup (target : Option Target) :
    (cleanupCall (bindInit target)).active = [] :=
  cleanupCall_active_nil _ (goodState_bindInit target)

/-- C10: invoking the returned cleanup function does not disable the
reactive effect: if afterwards the target signal changes to a present
target, the handler is registered again on it (and only on it). -/
theorem use_event_listener_rebinds_after_cleanup (target : Option Target)
    (evs : List BinderEvent) (t : Target) :
    (effectRun (cleanupCall (binderRun (bindInit target) evs))
        (some t)).active = [t]
  ∧ (effectRun (cleanupCall (binderRun (bindInit target) evs))
        (some t)).cleanupCell = some t := by
  have hnil : (cleanupCall (binderRun (bindInit target) evs)).active = [] :=
    cleanupCall_active_nil _
      (goodState_run evs _ (goodState_bindInit target))
  have hnil2 : (runStoredCleanup
      (cleanupCall (binderRun (bindInit target) evs))).active = [] :=
    runStoredCleanup_nil _ hnil
  constructor
  · simp [effectRun, hnil2, addListener]
  · simp [effectRun]

theorem screen_strategy_pairs_screen_x_with_client_y_witness :
    UseMouseCoordType.Screen.extract_mouse_coords ⟨0, 0, 0, 1, 2, 3, 0, 0⟩
      = some (2, 1) :=
  screen_strategy_pairs_screen_x_with_client_y.1 ⟨0, 0, 0, 1, 2, 3, 0, 0⟩
